import Mathlib

/-!
A shallow embedding of `reportlab/lib/validators.py` (revision 3752) and proofs
about its validator classes.  Python runtime values are modelled by `PyVal`,
Python exceptions by `PyError`; fallible Python code is embedded as functions
into `Except PyError _`.  Function and class names follow the source.
-/

/-- The universe of Python values the validators are exercised on: `None`,
booleans, ints, floats (modelled as rationals), strings, lists, tuples, and
the module's deferred-value sentinel `inherit` (the sole `Inherit` instance). -/
inductive PyVal where
  | none
  | bool (b : Bool)
  | int (n : Int)
  | float (q : ℚ)
  | str (s : String)
  | list (xs : List PyVal)
  | tuple (xs : List PyVal)
  | inheritVal
  deriving Repr

/-- Python exceptions raised along the validators' code paths. -/
inductive PyError where
  | typeError
  | valueError (msg : String)
  | attributeError
  | nameError (n : String)
  | lookupError
  deriving Repr, DecidableEq

/-- `reportlab.lib.utils.isSeqType`: is the value a list or a tuple. -/
def isSeqType : PyVal → Bool
  | .list _ | .tuple _ => true
  | _ => false

/-- `reportlab.lib.utils.isStrType`: is the value a string. -/
def isStrType : PyVal → Bool
  | .str _ => true
  | _ => false

/-- The numeric value of a member of Python's numeric tower (`bool` counts as
0/1), `none` otherwise; used to embed Python `==` across `bool`/`int`/`float`. -/
def pyNum? : PyVal → Option ℚ
  | .bool b => some (if b then 1 else 0)
  | .int n => some (n : ℚ)
  | .float q => some q
  | _ => none

mutual

/-- Python `==` on the modelled values: numeric kinds compare by value
(`1 == 1.0 == True`), strings by content, lists/tuples elementwise within
their own kind, `None` and the `inherit` sentinel only to themselves
(default object identity equality); everything else is unequal. -/
def pyEq : PyVal → PyVal → Bool
  | .str a, .str b => a = b
  | .none, .none => true
  | .inheritVal, .inheritVal => true
  | .list xs, .list ys => pyEqList xs ys
  | .tuple xs, .tuple ys => pyEqList xs ys
  | a, b =>
    match pyNum? a, pyNum? b with
    | some p, some q => p = q
    | _, _ => false

/-- Elementwise Python `==` on sequences of equal length. -/
def pyEqList : List PyVal → List PyVal → Bool
  | [], [] => true
  | x :: xs, y :: ys => pyEq x y && pyEqList xs ys
  | _, _ => false

end

/-- The elements of a list or tuple value (empty for non-sequences). -/
def pySeqElems : PyVal → List PyVal
  | .list xs | .tuple xs => xs
  | _ => []

/-- The numeric value of a list of decimal digit characters. -/
def digitsVal (l : List Char) : Nat :=
  l.foldl (fun a c => a * 10 + (c.toNat - 48)) 0

/-- Are all characters decimal digits. -/
def allDigits (l : List Char) : Bool :=
  l.all (fun c => c.isDigit)

/-- Strip leading and trailing whitespace from a character list. -/
def trimChars (l : List Char) : List Char :=
  ((l.dropWhile Char.isWhitespace).reverse.dropWhile Char.isWhitespace).reverse

/-- Split a character list at every `.`. -/
def splitOnDot : List Char → List (List Char)
  | [] => [[]]
  | c :: rest =>
    if c = '.' then [] :: splitOnDot rest
    else
      match splitOnDot rest with
      | h :: t => (c :: h) :: t
      | [] => [[c]]

/-- Strip one optional leading sign, returning the sign as `1` or `-1`. -/
def stripSign : List Char → Int × List Char
  | '-' :: r => (-1, r)
  | '+' :: r => (1, r)
  | r => (1, r)

/-- Python `float(s)` on a string: surrounding whitespace is ignored, then an
optional sign and a decimal literal `digits`, `digits.digits`, `digits.` or
`.digits`; anything else raises `ValueError`.  (Exponent, `inf`/`nan` and
underscore forms are outside the modelled input universe.) -/
def pyFloatOfString (s : String) : Except PyError ℚ :=
  let (sign, body) := stripSign (trimChars s.toList)
  match splitOnDot body with
  | [a] =>
    if a ≠ [] && allDigits a then .ok ((sign : ℚ) * digitsVal a)
    else .error (.valueError "could not convert string to float")
  | [a, b] =>
    if (a ≠ [] || b ≠ []) && allDigits a && allDigits b then
      .ok ((sign : ℚ) * (digitsVal a + (digitsVal b : ℚ) / 10 ^ b.length))
    else .error (.valueError "could not convert string to float")
  | _ => .error (.valueError "could not convert string to float")

/-- Python `int(s)` on a string: surrounding whitespace is ignored, then an
optional sign and a non-empty run of decimal digits; anything else (including
`"3.5"`) raises `ValueError`. -/
def pyIntOfString (s : String) : Except PyError Int :=
  let (sign, body) := stripSign (trimChars s.toList)
  if body ≠ [] && allDigits body then .ok (sign * digitsVal body)
  else .error (.valueError "invalid literal for int")

/-- Python's built-in `float(x)`: numbers convert by value, strings parse as
decimal literals, everything else raises `TypeError`. -/
def pyFloat : PyVal → Except PyError ℚ
  | .bool b => .ok (if b then 1 else 0)
  | .int n => .ok (n : ℚ)
  | .float q => .ok q
  | .str s => pyFloatOfString s
  | _ => .error .typeError

/-- Python's built-in `int(x)`: booleans and ints convert by value, floats
truncate toward zero, strings parse as integer literals, everything else
(`None`, sequences, the sentinel) raises `TypeError`. -/
def pyInt : PyVal → Except PyError Int
  | .bool b => .ok (if b then 1 else 0)
  | .int n => .ok n
  | .float q => .ok (if 0 ≤ q then q.floor else q.ceil)
  | .str s => pyIntOfString s
  | _ => .error .typeError

/-- Python attribute access `x.upper()`: only strings carry `upper` among the
modelled values (ASCII uppercasing); on anything else the attribute lookup
raises `AttributeError`. -/
def pyUpper : PyVal → Except PyError PyVal
  | .str s => .ok (.str (String.mk (s.toList.map Char.toUpper)))
  | _ => .error .attributeError

deriving instance DecidableEq for Except

example : pyEq (.float 1) (.int 1) = true := by decide
example : pyEq (.bool true) (.int 1) = true := by decide
example : pyEq .inheritVal (.int 0) = false := by decide
example : pyEq (.list []) (.tuple []) = false := by decide
example : pyFloat (.str "3.5") = .ok (7/2 : ℚ) := by
  simp +decide [pyFloat, pyFloatOfString, trimChars, splitOnDot, stripSign, allDigits, digitsVal]
  norm_num
example : pyFloat (.str "abc") = .error (.valueError "could not convert string to float") := by decide
example : pyInt PyVal.none = .error .typeError := by decide
example : pyUpper (.str "true") = .ok (.str "TRUE") := rfl

/-- `inherit = Inherit()` (line 303): the canonical deferred-value sentinel,
the sole instance of `Inherit`/`DerivedValue`. -/
def inherit : PyVal := PyVal.inheritVal

/-- The base class `Validator`: a validator instance is characterised by its
`test` method (a total boolean predicate on values). -/
structure Validator where
  test : PyVal → Bool

/-- `Validator.__call__(x)` (lines 15-16): `return self.test(x)`. -/
def Validator.call (v : Validator) (x : PyVal) : Bool :=
  v.test x

/-- `Validator.normalize` (lines 21-22): the base-class default, identity
(no coercion, never fails). -/
def Validator.normalize (x : PyVal) : Except PyError PyVal :=
  .ok x

/-- `Validator.normalizeTest` (lines 24-29): run the class's `normalize`
under a bare `except:`; every failure kind is caught and reported as `False`,
success as `True`. -/
def normalizeTest (normalize : PyVal → Except PyError PyVal) (x : PyVal) : Bool :=
  match normalize x with
  | .ok _ => true
  | .error _ => false

/-- `_isBoolean.normalize` (lines 44-52): values equal to `0` or `1` are
returned unchanged; otherwise `x.upper()` is attempted (any failure becomes
`ValueError('Must be boolean')`), `'YES'`/`'TRUE'` map to `True`,
`'NO'`/`'FALSE'` (or a `None` result of `upper`, dead for string inputs) map
to `False`, and anything else raises `ValueError('Must be boolean')`. -/
def _isBoolean.normalize (x : PyVal) : Except PyError PyVal :=
  if pyEq x (.int 0) || pyEq x (.int 1) then .ok x
  else
    match pyUpper x with
    | .error _ => .error (.valueError "Must be boolean")
    | .ok S =>
      if pyEq S (.str "YES") || pyEq S (.str "TRUE") then .ok (.bool true)
      else if pyEq S (.str "NO") || pyEq S (.str "FALSE") || pyEq S PyVal.none then
        .ok (.bool false)
      else .error (.valueError "Must be boolean")

/-- `_isBoolean.test` (lines 40-42): for `int`/`bool`-typed values, membership
in `(0,1)`; otherwise `normalizeTest`. -/
def _isBoolean.test (x : PyVal) : Bool :=
  match x with
  | .int _ | .bool _ => pyEq x (.int 0) || pyEq x (.int 1)
  | _ => normalizeTest _isBoolean.normalize x

/-- `_isString.test` (lines 55-56): `isStrType(x)`. -/
def _isString.test (x : PyVal) : Bool :=
  isStrType x

/-- `_isNumber.normalize` (lines 73-77): `float(x)`, and on any failure
`int(x)` (whose own failure propagates). -/
def _isNumber.normalize (x : PyVal) : Except PyError PyVal :=
  match pyFloat x with
  | .ok q => .ok (.float q)
  | .error _ => (pyInt x).map PyVal.int

/-- `_isNumber.test` (lines 69-71): `float`/`int`-typed values pass directly
(`bool` is not in `_NumberTypes`); otherwise `normalizeTest`. -/
def _isNumber.test (x : PyVal) : Bool :=
  match x with
  | .float _ | .int _ => true
  | _ => normalizeTest _isNumber.normalize x

/-- `_isInt.normalize` (lines 84-85): `int(x)`. -/
def _isInt.normalize (x : PyVal) : Except PyError PyVal :=
  (pyInt x).map PyVal.int

/-- `_isInt.test` (lines 80-82): rejects anything that is not a string or an
`int`-typed value, then `normalizeTest`. -/
def _isInt.test (x : PyVal) : Bool :=
  if !(isStrType x || (x matches .int _)) then false
  else normalizeTest _isInt.normalize x

/-- `_isCallable.test` (lines 186-187): `hasattr(x, '__call__')`; none of the
modelled value shapes (`None`, numbers, strings, sequences, the sentinel)
defines `__call__`. -/
def _isCallable.test (_x : PyVal) : Bool :=
  false

/-- Exported singleton `isBoolean = _isBoolean()` (line 317). -/
def isBoolean : Validator := ⟨_isBoolean.test⟩

/-- Exported singleton `isString = _isString()` (line 318). -/
def isString : Validator := ⟨_isString.test⟩

/-- Exported singleton `isNumber = _isNumber()` (line 320). -/
def isNumber : Validator := ⟨_isNumber.test⟩

/-- Exported singleton `isInt = _isInt()` (line 321). -/
def isInt : Validator := ⟨_isInt.test⟩

/-- Exported singleton `isCallable = _isCallable()` (line 344). -/
def isCallable : Validator := ⟨_isCallable.test⟩

/-- `_isNumberOrNone.test` (lines 88-89): `x is None or isNumber(x)`, where
`isNumber(x)` calls the exported singleton. -/
def _isNumberOrNone.test (x : PyVal) : Bool :=
  (x matches PyVal.none) || Validator.call isNumber x

/-- `_isNumberOrNone.normalize` (lines 91-93): `None` passes through,
otherwise `_isNumber.normalize`. -/
def _isNumberOrNone.normalize (x : PyVal) : Except PyError PyVal :=
  if x matches PyVal.none then .ok x else _isNumber.normalize x

/-- Exported singleton `isNumberOrNone = _isNumberOrNone()` (line 323). -/
def isNumberOrNone : Validator := ⟨_isNumberOrNone.test⟩

/-- `isNumberInRange.__init__` state (lines 102-104): the inclusive bounds. -/
structure isNumberInRange where
  min : ℚ
  max : ℚ

/-- `isNumberInRange.test` (lines 106-113): `n = self.normalize(x)` (the
inherited `_isNumber.normalize`), then `self.min <= n <= self.max`; the
`try` catches only `ValueError` (turned into `False`) — any other exception
from `normalize` propagates out of `test`. -/
def isNumberInRange.test (v : isNumberInRange) (x : PyVal) : Except PyError Bool :=
  match _isNumber.normalize x with
  | .ok n =>
    .ok (match pyNum? n with
         | some q => decide (v.min ≤ q) && decide (q ≤ v.max)
         | Option.none => false)
  | .error (.valueError _) => .ok false
  | .error e => .error e

/-- `OneOf.__init__` (lines 199-205): a sequence first argument together with
extra positional values raises `ValueError`; a lone sequence enumerates its
elements (`tuple(enum)+args`); a non-sequence first argument enumerates
`(enum,)+args`. -/
def OneOf.init (enum : PyVal) (args : List PyVal) : Except PyError (List PyVal) :=
  if isSeqType enum then
    if !args.isEmpty then
      .error (.valueError "Either all singleton args or a single sequence argument")
    else .ok (pySeqElems enum ++ args)
  else .ok (enum :: args)

/-- `OneOf.test` (lines 207-208): `x in self._enum`, Python `==` membership. -/
def OneOf.test (enum : List PyVal) (x : PyVal) : Bool :=
  enum.any (fun e => pyEq x e)

/-- `SequenceOf.__init__` state (lines 211-216); the flags are `1`/`0` in the
source and are modelled as booleans, `lo`/`hi` defaulting to `0` and
`0x7fffffff`. -/
structure SequenceOf where
  elemTest : Validator
  emptyOK : Bool
  NoneOK : Bool
  lo : Int
  hi : Int

/-- `SequenceOf.test` (lines 218-227): non-sequences yield `NoneOK` for
`None` and `False` otherwise; `x==[] or x==()` yields `emptyOK`; then the
length-bound check `lo <= len(x) <= hi`, then every element is passed to
`self._elemTest(e)` (the child's `__call__`). -/
def SequenceOf.test (v : SequenceOf) (x : PyVal) : Bool :=
  if !isSeqType x then
    if x matches PyVal.none then v.NoneOK else false
  else if pyEq x (.list []) || pyEq x (.tuple []) then v.emptyOK
  else if !(decide (v.lo ≤ ((pySeqElems x).length : Int))
            && decide (((pySeqElems x).length : Int) ≤ v.hi)) then false
  else (pySeqElems x).all (fun e => v.elemTest.call e)

/-- `EitherOr.__init__` state (lines 230-233); a non-sequence argument is
wrapped into a one-element tuple, so the state is always a list of child
validators. -/
structure EitherOr where
  tests : List Validator

/-- `EitherOr.test` (lines 235-238): first child whose `__call__` accepts
wins; otherwise `False`. -/
def EitherOr.test (v : EitherOr) (x : PyVal) : Bool :=
  v.tests.any (fun t => t.call x)

/-- `NoneOr.__init__` state (lines 241-243). -/
structure NoneOr where
  elemTest : Validator

/-- `NoneOr.test` (lines 245-247): `None` is accepted unconditionally,
everything else is delegated to the child's `__call__`. -/
def NoneOr.test (v : NoneOr) (x : PyVal) : Bool :=
  if x matches PyVal.none then true else v.elemTest.call x

/-- The names bound at the top level of `validators.py` by its import
statements: line 7 `import string, sys, codecs`, line 8 `from types import *`
(which binds only type objects such as `FunctionType`), line 10
`from reportlab.lib import colors`, line 11 `from reportlab.lib.utils import
isSeqType, isStrType`, line 161 `from reportlab.lib.normalDate import
NormalDate`.  The name `re` is never bound. -/
def moduleBindings : List String :=
  ["string", "sys", "codecs", "colors", "isSeqType", "isStrType", "NormalDate"]

/-- `matchesPattern.__init__` (lines 268-269): evaluates `re.compile(pattern)`.
The free name `re` is resolved against the module's bindings; since the module
never imports `re`, the lookup raises `NameError` before any pattern is
compiled, so no `matchesPattern` instance can ever be constructed. -/
def matchesPattern.init (pattern : String) : Except PyError String :=
  if moduleBindings.contains "re" then .ok pattern
  else .error (.nameError "re")

/-- Exported singleton `isListOfNumbers = SequenceOf(isNumber,'isListOfNumbers')`
(line 325), with the default flags and bounds. -/
def isListOfNumbers : SequenceOf := ⟨isNumber, true, false, 0, 0x7fffffff⟩

/-- Exported singleton `isXYCoord = SequenceOf(isNumber,lo=2,hi=2,emptyOK=0)`
(line 338). -/
def isXYCoord : SequenceOf := ⟨isNumber, false, false, 2, 2⟩

/-- Exported singleton `isNoneOrString = NoneOr(isString,'NoneOrString')`
(line 340). -/
def isNoneOrString : NoneOr := ⟨isString⟩

/-- Exported singleton `isNoneOrInt = NoneOr(isInt,'isNoneOrInt')` (line 322). -/
def isNoneOrInt : NoneOr := ⟨isInt⟩

/-- Exported singleton
`isStringOrCallable = EitherOr((isString,isCallable),'isStringOrCallable')`
(line 345). -/
def isStringOrCallable : EitherOr := ⟨[isString, isCallable]⟩

example : _isBoolean.test (.str "YES") = true := rfl
example : _isNumber.test (.str "3.5") = true := by
  simp [_isNumber.test, normalizeTest, _isNumber.normalize, pyFloat, pyFloatOfString,
    trimChars, splitOnDot, stripSign, allDigits]
example : _isNumber.test PyVal.none = false := rfl
example : _isInt.test (.str "3.5") = false := rfl
example : _isInt.test (.int 7) = true := rfl
example : NoneOr.test isNoneOrInt PyVal.none = true := rfl
example : EitherOr.test isStringOrCallable (.str "ok") = true := rfl
example : EitherOr.test isStringOrCallable (.int 42) = false := rfl

/-- C1: the claim that every exported validator's `test` returns a boolean and
never raises fails on `isNumberInRange`: with bounds `0..10`, `test(None)`
propagates the `TypeError` raised by `int(None)` inside the inherited
`_isNumber.normalize`, because the `try` in `isNumberInRange.test` catches
only `ValueError`. -/
theorem C1_isNumberInRange_test_raises :
    isNumberInRange.test ⟨0, 10⟩ PyVal.none = .error PyError.typeError := rfl

/-- C2 (counterexample): the exported combinator `isNoneOrString =
NoneOr(isString)` does not treat the deferred-value sentinel as automatically
valid: `test(inherit)` returns `False`, not `True` as the claim states. -/
theorem C2_counterexample : NoneOr.test isNoneOrString inherit = false := rfl

/-- C2 (amended): the combinators have no deferred-value awareness: `NoneOr`
delegates `inherit` to its child validator's `__call__` like any non-`None`
value, and the exported `NoneOr(isString)`, `EitherOr((isString,isCallable))`
and `SequenceOf(isNumber)` instances all return `False` on `inherit`;
accepting the sentinel unvalidated is left to the external consumer. -/
theorem C2_amended_no_deferred_awareness :
    NoneOr.test isNoneOrString inherit = Validator.call isNoneOrString.elemTest inherit ∧
    NoneOr.test isNoneOrString inherit = false ∧
    EitherOr.test isStringOrCallable inherit = false ∧
    SequenceOf.test isListOfNumbers inherit = false :=
  ⟨rfl, rfl, rfl, rfl⟩

/-- C3: `_isBoolean.normalize` at the claim's five inputs: the four string
cases behave as claimed, but `normalize(None)` raises
`ValueError('Must be boolean')` (from the failing `None.upper()`) instead of
returning `False` — even though the dead `None` entry in the membership tuple
`('NO','FALSE',None)` shows `False` was the intent. -/
theorem C3_isBoolean_normalize_eval :
    _isBoolean.normalize (.str "YES") = .ok (.bool true) ∧
    _isBoolean.normalize (.str "true") = .ok (.bool true) ∧
    _isBoolean.normalize (.str "NO") = .ok (.bool false) ∧
    _isBoolean.normalize PyVal.none = .error (.valueError "Must be boolean") ∧
    _isBoolean.normalize (.str "maybe") = .error (.valueError "Must be boolean") :=
  ⟨rfl, rfl, rfl, rfl, rfl⟩

/-- C4: `SequenceOf` semantics: a non-sequence, non-`None` input is rejected;
`test(None)` returns the `NoneOK` flag; an empty list or tuple yields
`emptyOK` independently of the bounds; a non-empty sequence is accepted iff
its length lies in `[lo,hi]` and every element passes the child validator;
and the exported `isXYCoord = SequenceOf(isNumber,lo=2,hi=2,emptyOK=0)`
behaves exactly as the claim's concrete cases state. -/
theorem C4_SequenceOf_test :
    (∀ (v : SequenceOf) (x : PyVal), isSeqType x = false → x ≠ PyVal.none →
      SequenceOf.test v x = false) ∧
    (∀ v : SequenceOf, SequenceOf.test v PyVal.none = v.NoneOK) ∧
    (∀ v : SequenceOf, SequenceOf.test v (.list []) = v.emptyOK ∧
      SequenceOf.test v (.tuple []) = v.emptyOK) ∧
    (∀ (v : SequenceOf) (a : PyVal) (xs : List PyVal),
      SequenceOf.test v (.list (a :: xs)) = true ↔
        (v.lo ≤ ((a :: xs).length : Int) ∧ ((a :: xs).length : Int) ≤ v.hi ∧
          ∀ e ∈ a :: xs, v.elemTest.test e = true)) ∧
    (SequenceOf.test isXYCoord (.list []) = false ∧
      SequenceOf.test isXYCoord (.list [.int 1, .int 2]) = true ∧
      SequenceOf.test isXYCoord (.list [.int 1, .int 2, .int 3]) = false ∧
      SequenceOf.test isXYCoord PyVal.none = false) := by
  refine ⟨?_, fun v => rfl, fun v => ⟨rfl, rfl⟩, ?_, rfl, rfl, rfl, rfl⟩
  · intro v x hseq hnone
    cases x <;> simp_all [SequenceOf.test, isSeqType]
  · intro v a xs
    simp [SequenceOf.test, pySeqElems, Validator.call, isSeqType, pyEq, pyEqList, pyNum?,
      List.all_eq_true, and_assoc]

/-- C4 witness: the general rejection clause applied to the concrete
non-sequence, non-`None` input `"xy"`. -/
theorem C4_witness : SequenceOf.test isXYCoord (.str "xy") = false :=
  C4_SequenceOf_test.1 isXYCoord (.str "xy") rfl (fun h => nomatch h)

/-- C5: `normalizeTest` returns `True` exactly when the class's `normalize`
succeeds, and returns `False` for every failure kind `normalize` can raise
(the bare `except:` is a catch-all over `PyError`), never propagating. -/
theorem C5_normalizeTest_catch_all :
    ∀ (normalize : PyVal → Except PyError PyVal) (x : PyVal),
      (normalizeTest normalize x = true ↔ ∃ y, normalize x = .ok y) ∧
      (∀ e : PyError, normalize x = .error e → normalizeTest normalize x = false) := by
  intro normalize x
  refine ⟨⟨fun h => ?_, fun ⟨y, hy⟩ => ?_⟩, fun e he => ?_⟩
  · unfold normalizeTest at h
    cases hn : normalize x with
    | ok y => exact ⟨y, rfl⟩
    | error e => rw [hn] at h; simp at h
  · unfold normalizeTest; rw [hy]
  · unfold normalizeTest; rw [he]

/-- C5 witness: the catch-all clause applied to `_isBoolean.normalize` and the
failing input `"maybe"`. -/
theorem C5_witness : normalizeTest _isBoolean.normalize (.str "maybe") = false :=
  (C5_normalizeTest_catch_all _isBoolean.normalize (.str "maybe")).2
    (.valueError "Must be boolean") rfl

/-- C6: constructing `OneOf` from a sequence plus extra positional values
raises `ValueError` at construction time; a lone sequence enumerates its
elements, a non-sequence first argument enumerates the variadic literals, and
`test` is exact Python `==` membership in the enumerated values (no
coercion). -/
theorem C6_OneOf :
    (∀ (enum : PyVal) (args : List PyVal), isSeqType enum = true → args ≠ [] →
      OneOf.init enum args =
        .error (.valueError "Either all singleton args or a single sequence argument")) ∧
    (∀ s : PyVal, isSeqType s = true → OneOf.init s [] = .ok (pySeqElems s)) ∧
    (∀ (v : PyVal) (args : List PyVal), isSeqType v = false →
      OneOf.init v args = .ok (v :: args)) ∧
    (∀ (enum : List PyVal) (x : PyVal),
      OneOf.test enum x = enum.any (fun e => pyEq x e)) := by
  refine ⟨?_, ?_, ?_, fun enum x => rfl⟩
  · intro enum args h hne
    cases args with
    | nil => exact absurd rfl hne
    | cons a as => simp [OneOf.init, h]
  · intro s h
    simp [OneOf.init, h]
  · intro v args h
    simp [OneOf.init, h]

/-- C6 witness: the construction-time error clause applied to the concrete
misuse `OneOf(('happy','sad'), 'grumpy')`. -/
theorem C6_witness :
    OneOf.init (.tuple [.str "happy", .str "sad"]) [.str "grumpy"] =
      .error (.valueError "Either all singleton args or a single sequence argument") :=
  C6_OneOf.1 (.tuple [.str "happy", .str "sad"]) [.str "grumpy"] rfl
    (List.cons_ne_nil _ _)

/-- C7: for each validator of the module with a defined `normalize`
(the base class's identity, `_isBoolean`, `_isNumber`, `_isInt`,
`_isNumberOrNone`), a value accepted in native form — without needing
coercion — normalizes successfully, and normalizing the result again returns
it unchanged (idempotence). -/
theorem C7_normalize_idempotent :
    (∀ x : PyVal, Validator.normalize x = .ok x ∧ Validator.normalize x = Validator.normalize x) ∧
    (∀ x : PyVal, (x matches .int _ || x matches .bool _) = true →
      _isBoolean.test x = true →
      ∃ y, _isBoolean.normalize x = .ok y ∧ _isBoolean.normalize y = .ok y) ∧
    (∀ x : PyVal, (x matches .int _ || x matches .float _) = true →
      ∃ y, _isNumber.normalize x = .ok y ∧ _isNumber.normalize y = .ok y) ∧
    (∀ n : Int, ∃ y, _isInt.normalize (.int n) = .ok y ∧ _isInt.normalize y = .ok y) ∧
    (∀ x : PyVal, (x matches PyVal.none || x matches .int _ || x matches .float _) = true →
      ∃ y, _isNumberOrNone.normalize x = .ok y ∧ _isNumberOrNone.normalize y = .ok y) := by
  refine ⟨fun x => ⟨rfl, rfl⟩, ?_, ?_, fun n => ⟨.int n, rfl, rfl⟩, ?_⟩
  · intro x hshape htest
    cases x with
    | int n =>
      simp only [_isBoolean.test] at htest
      exact ⟨.int n, by simp [_isBoolean.normalize, htest],
        by simp [_isBoolean.normalize, htest]⟩
    | bool b =>
      simp only [_isBoolean.test] at htest
      exact ⟨.bool b, by simp [_isBoolean.normalize, htest],
        by simp [_isBoolean.normalize, htest]⟩
    | none => exact nomatch hshape
    | float q => exact nomatch hshape
    | str s => exact nomatch hshape
    | list xs => exact nomatch hshape
    | tuple xs => exact nomatch hshape
    | inheritVal => exact nomatch hshape
  · intro x hshape
    cases x with
    | int n => exact ⟨.float (n : ℚ), rfl, rfl⟩
    | float q => exact ⟨.float q, rfl, rfl⟩
    | none => exact nomatch hshape
    | bool b => exact nomatch hshape
    | str s => exact nomatch hshape
    | list xs => exact nomatch hshape
    | tuple xs => exact nomatch hshape
    | inheritVal => exact nomatch hshape
  · intro x hshape
    cases x with
    | none => exact ⟨PyVal.none, rfl, rfl⟩
    | int n => exact ⟨.float (n : ℚ), rfl, rfl⟩
    | float q => exact ⟨.float q, rfl, rfl⟩
    | bool b => exact nomatch hshape
    | str s => exact nomatch hshape
    | list xs => exact nomatch hshape
    | tuple xs => exact nomatch hshape
    | inheritVal => exact nomatch hshape

/-- C7 witness: the `_isBoolean` clause applied to the native boolean `True`. -/
theorem C7_witness :
    ∃ y, _isBoolean.normalize (.bool true) = .ok y ∧ _isBoolean.normalize y = .ok y :=
  C7_normalize_idempotent.2.1 (.bool true) rfl (by decide)

/-- C8: the claim that a `matchesPattern` validator can be constructed fails:
`matchesPattern.__init__` evaluates `re.compile(pattern)` but the module never
imports `re`, so construction raises `NameError` for every pattern and no
instance's `test` can ever run. -/
theorem C8_matchesPattern_init_raises :
    matchesPattern.init "[0-9]+" = .error (.nameError "re") := rfl

/-- C9: every `Validator` is callable and `__call__(x)` returns exactly
`test(x)`; consequently the combinators' delegation to their stored children
through `__call__` coincides with calling the children's `test` directly. -/
theorem C9_call_eq_test :
    (∀ (v : Validator) (x : PyVal), Validator.call v x = Validator.test v x) ∧
    (∀ (w : NoneOr) (x : PyVal),
      NoneOr.test w x =
        if x matches PyVal.none then true else Validator.test w.elemTest x) ∧
    (∀ (w : EitherOr) (x : PyVal),
      EitherOr.test w x = w.tests.any (fun t => Validator.test t x)) :=
  ⟨fun _ _ => rfl, fun _ _ => rfl, fun _ _ => rfl⟩

/-- C10: `_isBoolean.normalize` returns any value equal to `0` or `1` (the
ints `0`/`1`, both booleans, floats such as `1.0`) unchanged rather than
canonicalizing it, and `_isBoolean.test` therefore accepts `1.0` while
rejecting `2`. -/
theorem C10_isBoolean_identity_on_01 :
    (∀ x : PyVal, (pyEq x (.int 0) || pyEq x (.int 1)) = true →
      _isBoolean.normalize x = .ok x) ∧
    _isBoolean.test (.float 1) = true ∧
    _isBoolean.test (.int 2) = false ∧
    _isBoolean.normalize (.float 1) = .ok (.float 1) ∧
    _isBoolean.normalize (.bool true) = .ok (.bool true) := by
  refine ⟨?_, by decide, rfl, rfl, rfl⟩
  intro x h
  simp [_isBoolean.normalize, h]

/-- C10 witness: the identity clause applied to the concrete input `0`. -/
theorem C10_witness : _isBoolean.normalize (.int 0) = .ok (.int 0) :=
  C10_isBoolean_identity_on_01.1 (.int 0) rfl
